import Mathlib

/-!
Verification of the Gupshup WhatsApp channel adapter
(openclaw-gupshup: gupshup-channel.ts, api-client.ts, accounts.ts,
message-transformer.ts, webhook-handler.ts).

The TypeScript sources are embedded shallowly: pure functions become Lean
functions, stateful methods become explicit state passing, HTTP and file
system effects become explicit oracle parameters, and thrown JavaScript
errors become explicit error values (`Except` / sum results).
-/

set_option maxHeartbeats 1000000

namespace Gupshup

/-- Digits-only phone normalization, from `normalizePhone` in
gupshup-channel.ts (`phone.replace(/[^\d]/g, '')`). -/
def normalizePhone (phone : String) : String :=
  String.mk (phone.toList.filter Char.isDigit)

/-- 24-hour session window in milliseconds (`SESSION_WINDOW_MS` in
gupshup-channel.ts). -/
def SESSION_WINDOW_MS : Nat := 24 * 60 * 60 * 1000

/-- Per-phone session record (`SessionInfo` in types.ts).  Timestamps are
milliseconds since epoch, as produced by `Date.now()`. -/
structure SessionInfo where
  phone : String
  lastMessageAt : Nat
  isActive : Bool
deriving DecidableEq

/-- The channel session map `sessions : Map<string, SessionInfo>`, keyed by
normalized phone number. -/
abbrev SessionMap := String → Option SessionInfo

/-- `GupshupChannel.getSession` (gupshup-channel.ts lines 438-458): looks up
the normalized phone; a missing entry yields `lastMessageAt = 0`,
`isActive = false`; a present entry has `isActive` recomputed as
`now - lastMessageAt < SESSION_WINDOW_MS`. -/
def getSession (sessions : SessionMap) (now : Nat) (phone : String) : SessionInfo :=
  let normalized := normalizePhone phone
  match sessions normalized with
  | none => { phone := normalized, lastMessageAt := 0, isActive := false }
  | some session =>
      { session with isActive := decide (now - session.lastMessageAt < SESSION_WINDOW_MS) }

/-- `GupshupChannel.isSessionActive` (gupshup-channel.ts lines 470-472). -/
def isSessionActive (sessions : SessionMap) (now : Nat) (phone : String) : Bool :=
  (getSession sessions now phone).isActive

/-- `GupshupChannel.updateSession` (gupshup-channel.ts lines 426-433): stores
a fresh session record for the normalized phone. -/
def updateSession (sessions : SessionMap) (now : Nat) (phone : String) : SessionMap :=
  fun key =>
    if key = normalizePhone phone then
      some { phone := normalizePhone phone, lastMessageAt := now, isActive := true }
    else sessions key

/-- `GupshupChannel.checkAccess` (gupshup-channel.ts lines 166-185).  The
policy is `config?.dmPolicy ?? 'open'`; the switch has cases for `open`,
`allowlist` and `pairing` and a permissive `default`.  The allowlist is the
channel's `Set` of (already normalized) phone numbers, modelled as a list. -/
def checkAccess (policy : Option String) (allowlist : List String)
    (sessions : SessionMap) (phone : String) : Bool :=
  let p := policy.getD "open"
  let normalized := normalizePhone phone
  if p = "open" then true
  else if p = "allowlist" then allowlist.contains normalized
  else if p = "pairing" then allowlist.contains normalized || (sessions normalized).isSome
  else true

/- ------------------------------------------------------------------ -/
/- C1: session window semantics -/

/-- C1: for every phone and time, `getSession`/`isSessionActive` report the
session active exactly when the normalized phone has a stored session whose
age `now - lastMessageAt` is strictly below 24 hours; a phone with no
recorded session yields `isActive = false` and `lastMessageAt = 0`; a session
whose last inbound was exactly 24 hours ago is expired, and one at 24 hours
minus one millisecond is active. -/
theorem session_window_correct (sessions : SessionMap) (now : Nat) (phone : String) :
    (isSessionActive sessions now phone = true ↔
      ∃ s, sessions (normalizePhone phone) = some s ∧
        now - s.lastMessageAt < SESSION_WINDOW_MS)
    ∧ (sessions (normalizePhone phone) = none →
        getSession sessions now phone =
          { phone := normalizePhone phone, lastMessageAt := 0, isActive := false })
    ∧ (∀ s, sessions (normalizePhone phone) = some s →
        now = s.lastMessageAt + SESSION_WINDOW_MS →
        isSessionActive sessions now phone = false)
    ∧ (∀ s, sessions (normalizePhone phone) = some s →
        now + 1 = s.lastMessageAt + SESSION_WINDOW_MS →
        isSessionActive sessions now phone = true) := by
  refine ⟨?_, ?_, ?_, ?_⟩
  · constructor
    · intro h
      unfold isSessionActive getSession at h
      cases hs : sessions (normalizePhone phone) with
      | none => simp [hs] at h
      | some s =>
          refine ⟨s, rfl, ?_⟩
          simp [hs] at h
          exact h
    · rintro ⟨s, hs, hlt⟩
      unfold isSessionActive getSession
      simp [hs, hlt]
  · intro hs
    unfold getSession
    simp [hs]
  · intro s hs hnow
    unfold isSessionActive getSession
    simp [hs]
    omega
  · intro s hs hnow
    unfold isSessionActive getSession
    simp [hs]
    unfold SESSION_WINDOW_MS at hnow ⊢
    omega

/-- A session map with a single entry, used to instantiate the session
theorems on concrete inputs. -/
def exampleSessions : SessionMap :=
  fun key => if key = "15551234567" then
    some { phone := "15551234567", lastMessageAt := 0, isActive := true }
  else none

/-- Witness for C1: a session whose last inbound was at time 0, queried at
exactly the 24-hour boundary (86400000 ms) through a formatted phone string,
is expired. -/
theorem session_window_correct_witness :
    isSessionActive exampleSessions 86400000 "+1 555 123 4567" = false :=
  (session_window_correct exampleSessions 86400000 "+1 555 123 4567").2.2.1
    { phone := "15551234567", lastMessageAt := 0, isActive := true }
    (by decide) (by decide)

/- ------------------------------------------------------------------ -/
/- C5: access control policy -/

/-- C5: `checkAccess` decides access from the digits-only normalization of
the sender phone: policy `open` (or no configured policy) always permits;
`allowlist` permits exactly membership of the normalized phone in the
allowlist; `pairing` permits exactly allowlist membership or an existing
session entry; any other policy string permits; and two representations with
the same digits always get the same decision. -/
theorem checkAccess_policy (policy : Option String) (allowlist : List String)
    (sessions : SessionMap) (phone : String) :
    ((policy = some "open" ∨ policy = none) →
      checkAccess policy allowlist sessions phone = true)
    ∧ (policy = some "allowlist" →
      checkAccess policy allowlist sessions phone =
        allowlist.contains (normalizePhone phone))
    ∧ (policy = some "pairing" →
      checkAccess policy allowlist sessions phone =
        (allowlist.contains (normalizePhone phone) ||
          (sessions (normalizePhone phone)).isSome))
    ∧ (∀ p, policy = some p → p ≠ "open" → p ≠ "allowlist" → p ≠ "pairing" →
      checkAccess policy allowlist sessions phone = true)
    ∧ (∀ phone2, normalizePhone phone = normalizePhone phone2 →
      checkAccess policy allowlist sessions phone =
        checkAccess policy allowlist sessions phone2) := by
  refine ⟨?_, ?_, ?_, ?_, ?_⟩
  · rintro (h | h) <;> simp [checkAccess, h]
  · intro h
    simp [checkAccess, h]
  · intro h
    simp [checkAccess, h]
  · intro p h h1 h2 h3
    simp [checkAccess, h, h1, h2, h3]
  · intro phone2 h
    unfold checkAccess
    rw [h]

/-- Witness for C5: under policy `allowlist` with allowlist
`["15551234567"]`, the formatted sender `"+1 (555) 123-4567"` is permitted
(it normalizes into the allowlist). -/
theorem checkAccess_policy_witness :
    checkAccess (some "allowlist") ["15551234567"] exampleSessions "+1 (555) 123-4567" = true := by
  have h :=
    (checkAccess_policy (some "allowlist") ["15551234567"] exampleSessions
      "+1 (555) 123-4567").2.1 rfl
  rw [h]
  decide

/- ------------------------------------------------------------------ -/
/- Message envelope and wire types (types.ts, message-transformer.ts) -/

/-- Envelope content type tag (`MessageContentType` in types.ts). -/
inductive MessageContentType where
  | text
  | image
  | document
  | audio
  | video
  | location
  | contact
  | sticker
deriving DecidableEq

/-- Location payload inside `MessageContent` (types.ts). -/
structure LocationData where
  latitude : Float
  longitude : Float
  name : Option String := none
  address : Option String := none

/-- Contact payload inside `MessageContent` (types.ts). -/
structure ContactData where
  name : String
  phone : Option String := none
deriving DecidableEq

/-- `MessageContent` (types.ts): a type tag plus optional per-type fields. -/
structure MessageContent where
  type : MessageContentType
  text : Option String := none
  mediaUrl : Option String := none
  mimeType : Option String := none
  filename : Option String := none
  caption : Option String := none
  location : Option LocationData := none
  contact : Option ContactData := none

/-- Sender/recipient of an envelope (types.ts `MessageEnvelope`). -/
structure Party where
  id : String
  name : Option String := none
deriving DecidableEq

/-- `MessageEnvelope` (types.ts).  Of the free-form `metadata` record only
the `account` key is ever read by the channel, so it is modelled as the
single optional field `metadataAccount`. -/
structure MessageEnvelope where
  id : String
  channel : String
  direction : String
  sender : Party
  recipient : Party
  content : MessageContent
  timestamp : Nat
  replyTo : Option String := none
  metadataAccount : Option String := none

/-- `GupshupOutboundMessage` (types.ts): the provider wire message union. -/
inductive GupshupOutboundMessage where
  | text (text : String)
  | image (originalUrl : String) (caption : Option String)
  | file (url : String) (filename : String)
  | audio (url : String)
  | video (url : String) (caption : Option String)
  | location (latitude longitude : Float) (name address : Option String)
  | template (id : String) (params : Option (List String))

/-- `transformOutbound` (message-transformer.ts lines 565-637): maps envelope
content to a provider wire message.  Location content without coordinates
throws in the source; the throw is modelled as `Except.error` carrying the
thrown message. -/
def transformOutbound (envelope : MessageEnvelope) :
    Except String GupshupOutboundMessage :=
  match envelope.content.type with
  | .text => .ok (.text (envelope.content.text.getD ""))
  | .image => .ok (.image (envelope.content.mediaUrl.getD "") envelope.content.caption)
  | .document =>
      .ok (.file (envelope.content.mediaUrl.getD "")
        (envelope.content.filename.getD "document"))
  | .audio => .ok (.audio (envelope.content.mediaUrl.getD ""))
  | .video => .ok (.video (envelope.content.mediaUrl.getD "") envelope.content.caption)
  | .location =>
      match envelope.content.location with
      | none => .error "Location content is required for location messages"
      | some loc => .ok (.location loc.latitude loc.longitude loc.name loc.address)
  | .sticker => .ok (.image (envelope.content.mediaUrl.getD "") none)
  | .contact =>
      .ok (.text (match envelope.content.contact with
        | some c =>
            "Contact: " ++ c.name ++
              (match c.phone with
               | some p => " (" ++ p ++ ")"
               | none => "")
        | none => "Contact shared"))

/-- Inbound contact name object (types.ts `GupshupInboundContactContent`). -/
structure ContactName where
  firstName : String
  lastName : Option String := none
  formattedName : String
deriving DecidableEq

/-- Inbound contact phone entry (types.ts `GupshupInboundContactContent`). -/
structure ContactPhone where
  phone : String
  type : Option String := none
deriving DecidableEq

/-- `GupshupInboundContent` (types.ts): the inbound payload union.  Each
variant corresponds to one provider content-type tag. -/
inductive GupshupInboundContent where
  | text (text : String)
  | image (url contentType : String) (caption : Option String)
  | document (url contentType : String) (filename caption : Option String)
  | audio (url contentType : String)
  | video (url contentType : String) (caption : Option String)
  | location (latitude longitude : Float) (name address : Option String)
  | contact (name : ContactName) (phones : Option (List ContactPhone))
  | sticker (url contentType : String)

/-- `transformInboundContent` (message-transformer.ts lines 642-735): switch
on the payload type tag.  On the wire the tag always matches the payload
variant (the provider couples them in `GupshupMessagePayload`), so the
catch-all covers the source's `default` branch producing the placeholder
text. -/
def transformInboundContent (type : String) (payload : GupshupInboundContent) :
    MessageContent :=
  match type, payload with
  | "text", .text t => { type := .text, text := some t }
  | "image", .image url contentType caption =>
      { type := .image, mediaUrl := some url, mimeType := some contentType,
        caption := caption }
  | "document", .document url contentType filename caption =>
      { type := .document, mediaUrl := some url, mimeType := some contentType,
        filename := filename, caption := caption }
  | "audio", .audio url contentType =>
      { type := .audio, mediaUrl := some url, mimeType := some contentType }
  | "video", .video url contentType caption =>
      { type := .video, mediaUrl := some url, mimeType := some contentType,
        caption := caption }
  | "location", .location latitude longitude name address =>
      { type := .location,
        location := some { latitude := latitude, longitude := longitude,
                           name := name, address := address } }
  | "contact", .contact name phones =>
      { type := .contact,
        contact := some { name := name.formattedName,
                          phone := ((phones.getD []).head?).map (·.phone) } }
  | "sticker", .sticker url contentType =>
      { type := .sticker, mediaUrl := some url, mimeType := some contentType }
  | t, _ => { type := .text, text := some ("[Received " ++ t ++ " message]") }

/- ------------------------------------------------------------------ -/
/- C9: text round trip -/

/-- C9: a text envelope with a defined text string transforms to a wire
message of type `text` carrying exactly that text, and feeding the text back
through the inbound-side transformer yields text content equal to the
original. -/
theorem text_round_trip (envelope : MessageEnvelope) (s : String)
    (h1 : envelope.content.type = MessageContentType.text)
    (h2 : envelope.content.text = some s) :
    transformOutbound envelope = .ok (.text s)
    ∧ transformInboundContent "text" (.text s) =
        { type := MessageContentType.text, text := some s } := by
  constructor
  · unfold transformOutbound
    rw [h1, h2]
    rfl
  · rfl

/-- A concrete text envelope used to instantiate the outbound theorems. -/
def exampleTextEnvelope : MessageEnvelope :=
  { id := "m1"
    channel := "gupshup"
    direction := "outbound"
    sender := { id := "15550001111" }
    recipient := { id := "15551234567" }
    content := { type := .text, text := some "hello there" }
    timestamp := 1000 }

/-- Witness for C9: the concrete envelope with text `"hello there"` round
trips through the outbound and inbound transformers. -/
theorem text_round_trip_witness :
    transformOutbound exampleTextEnvelope = .ok (.text "hello there")
    ∧ transformInboundContent "text" (.text "hello there") =
        { type := MessageContentType.text, text := some "hello there" } :=
  text_round_trip exampleTextEnvelope "hello there" rfl rfl

/- ------------------------------------------------------------------ -/
/- C6: denied inbound messages leave state untouched -/

/-- Result of the webhook `onMessage` callback installed by
`GupshupChannel.initialize` (gupshup-channel.ts lines 105-126): the session
map afterwards, the channel activity timestamp update, the envelope
forwarded to the channel's `onMessage` event (if any), and the
`onAccessDenied` signal (if any). -/
structure InboundOutcome where
  sessions : SessionMap
  lastActivity : Option Nat
  forwarded : Option MessageEnvelope
  accessDenied : Option (String × String)

/-- The webhook `onMessage` callback from `GupshupChannel.initialize`
(gupshup-channel.ts lines 105-126): check access for the sender; when denied,
emit the access-denied signal with the raw sender id and the effective
policy and forward nothing; when permitted, record the session, bump
activity, and forward the envelope. -/
def handleInboundMessage (policy : Option String) (allowlist : List String)
    (sessions : SessionMap) (now : Nat) (envelope : MessageEnvelope) :
    InboundOutcome :=
  if checkAccess policy allowlist sessions envelope.sender.id then
    { sessions := updateSession sessions now envelope.sender.id
      lastActivity := some now
      forwarded := some envelope
      accessDenied := none }
  else
    { sessions := sessions
      lastActivity := none
      forwarded := none
      accessDenied := some (envelope.sender.id, policy.getD "open") }

/-- C6: an inbound message whose sender fails the access check leaves the
session map unchanged (no entry is created), forwards nothing to the message
handler, and emits the access-denied signal with the sender phone and the
active policy. -/
theorem denied_inbound_frame (policy : Option String) (allowlist : List String)
    (sessions : SessionMap) (now : Nat) (envelope : MessageEnvelope)
    (h : checkAccess policy allowlist sessions envelope.sender.id = false) :
    (handleInboundMessage policy allowlist sessions now envelope).sessions = sessions
    ∧ (handleInboundMessage policy allowlist sessions now envelope).forwarded = none
    ∧ (handleInboundMessage policy allowlist sessions now envelope).accessDenied =
        some (envelope.sender.id, policy.getD "open") := by
  unfold handleInboundMessage
  rw [h]
  exact ⟨rfl, rfl, rfl⟩

/-- A sender that is not on the example allowlist. -/
def deniedEnvelope : MessageEnvelope :=
  { id := "m2"
    channel := "gupshup"
    direction := "inbound"
    sender := { id := "15559999999" }
    recipient := { id := "15550001111" }
    content := { type := .text, text := some "hi" }
    timestamp := 2000 }

/-- Witness for C6: under policy `allowlist` with allowlist
`["15551234567"]`, the sender `"15559999999"` is denied: the empty session
map stays empty, nothing is forwarded, and the denial signal carries the
sender and policy. -/
theorem denied_inbound_frame_witness :
    (handleInboundMessage (some "allowlist") ["15551234567"] (fun _ => none) 7
        deniedEnvelope).forwarded = none
    ∧ (handleInboundMessage (some "allowlist") ["15551234567"] (fun _ => none) 7
        deniedEnvelope).accessDenied = some ("15559999999", "allowlist") := by
  have h := denied_inbound_frame (some "allowlist") ["15551234567"] (fun _ => none) 7
    deniedEnvelope (by decide)
  exact ⟨h.2.1, h.2.2⟩

/- ------------------------------------------------------------------ -/
/- Delivery client (api-client.ts) -/

/-- Provider-reported error object inside a send response (types.ts
`GupshupSendResponse.error`). -/
structure ResponseError where
  code : String
  message : String
deriving DecidableEq

/-- `GupshupSendResponse` (types.ts); `status` is the provider status string
(`"submitted"` or `"error"` on the wire). -/
structure GupshupSendResponse where
  status : String
  messageId : Option String := none
  error : Option ResponseError := none
deriving DecidableEq

/-- A thrown JavaScript error as observed by the retry loop: its `name`,
`message`, optional `code` property (absent on plain errors, present on
`GupshupApiError` and on many network errors) and optional `statusCode`. -/
structure JsError where
  name : String
  message : String
  code : Option String := none
  statusCode : Option Nat := none
deriving DecidableEq

/-- `GupshupApiClient.createApiError` (api-client.ts lines 291-301). -/
def createApiError (message code : String) (statusCode : Option Nat) : JsError :=
  { name := "GupshupApiError", message := message, code := some code,
    statusCode := statusCode }

/-- `MAX_RETRIES` (api-client.ts). -/
def MAX_RETRIES : Nat := 3

/-- `RETRY_DELAY_MS` (api-client.ts). -/
def RETRY_DELAY_MS : Nat := 1000

/-- What the HTTP POST of one attempt inside `GupshupApiClient.sendMessage`
produced: either a response (status code plus parsed JSON body) or a thrown
error (network failure, timeout, body parse failure). -/
inductive AttemptOutcome where
  | response (statusCode : Nat) (body : GupshupSendResponse)
  | thrownErr (e : JsError)

/-- The `body.error?.code === '470'` test (api-client.ts line 221). -/
def bodyHasError470 (body : GupshupSendResponse) : Bool :=
  match body.error with
  | some e => e.code == "470"
  | none => false

/-- What the `try` block of one loop iteration of
`GupshupApiClient.sendMessage` (api-client.ts lines 188-251) does with the
attempt's outcome: return the parsed body, throw an error, or — for HTTP 429
and HTTP >= 500 below the attempt limit — sleep and continue. -/
inductive TryResult where
  | ret (body : GupshupSendResponse)
  | raised (e : JsError)
  | retryNow
deriving DecidableEq

/-- The classification checks of one attempt, in source order: 429, then
401/403, then 470 / embedded "470", then >= 500, then an application-level
error body (api-client.ts lines 202-251). -/
def tryBody (outcome : AttemptOutcome) (attempt maxAttempts : Nat) : TryResult :=
  match outcome with
  | .thrownErr e => .raised e
  | .response statusCode body =>
    if statusCode = 429 then
      if attempt < maxAttempts then .retryNow
      else .raised (createApiError "Rate limited" "RATE_LIMITED" (some 429))
    else if statusCode = 401 ∨ statusCode = 403 then
      .raised (createApiError "Authentication failed. Check your API key."
        "AUTH_FAILED" (some statusCode))
    else if statusCode = 470 ∨ bodyHasError470 body then
      .raised (createApiError
        "Session expired. User must message first or use a template."
        "SESSION_EXPIRED" (some 470))
    else if 500 ≤ statusCode then
      if attempt < maxAttempts then .retryNow
      else .raised (createApiError ("Server error: " ++ toString statusCode)
        "SERVER_ERROR" (some statusCode))
    else if body.status = "error" then
      match body.error with
      | some err => .raised (createApiError err.message err.code (some statusCode))
      | none => .ret body
    else .ret body

/-- The non-retryable code test in the catch block (api-client.ts lines
255-262): `'code' in error && ['AUTH_FAILED', 'SESSION_EXPIRED'].includes(code)`. -/
def nonRetryableCode (e : JsError) : Bool :=
  e.code == some "AUTH_FAILED" || e.code == some "SESSION_EXPIRED"

/-- Result of the whole send: the returned body or the thrown error. -/
inductive SendLoopResult where
  | ok (resp : GupshupSendResponse)
  | raised (e : JsError)
deriving DecidableEq

/-- Observable trace of one `sendMessage` call: its result, the backoff
delays performed (in order), and how many HTTP attempts ran. -/
structure LoopTrace where
  result : SendLoopResult
  delays : List Nat
  attemptsMade : Nat
deriving DecidableEq

/-- The retry loop of `GupshupApiClient.sendMessage` (api-client.ts lines
184-272), one recursive step per loop iteration.  `outcomes n` is what the
HTTP POST of attempt `n` produces.  `fuel` counts the iterations the `for`
loop can still run (`maxAttempts` at entry with `attempt = 1`), so the
fuel-0 case is the `throw lastError ?? new Error(...)` fallback after the
loop.  On 429/>=500 below the limit the loop sleeps and continues without
touching `lastError`; a caught thrown error always records itself in
`lastError`, rethrows immediately when its code is non-retryable, and
otherwise retries after the linear backoff until the limit. -/
def sendLoop (outcomes : Nat → AttemptOutcome) (maxAttempts : Nat) :
    Nat → Nat → Option JsError → List Nat → Nat → LoopTrace
  | 0, _attempt, lastError, delays, made =>
      { result := .raised (lastError.getD
          { name := "Error", message := "Unknown error sending message" })
        delays := delays, attemptsMade := made }
  | fuel + 1, attempt, lastError, delays, made =>
      match tryBody (outcomes attempt) attempt maxAttempts with
      | .ret body => { result := .ok body, delays := delays, attemptsMade := made + 1 }
      | .retryNow =>
          sendLoop outcomes maxAttempts fuel (attempt + 1) lastError
            (delays ++ [RETRY_DELAY_MS * attempt]) (made + 1)
      | .raised e =>
          if nonRetryableCode e then
            { result := .raised e, delays := delays, attemptsMade := made + 1 }
          else if attempt < maxAttempts then
            sendLoop outcomes maxAttempts fuel (attempt + 1) (some e)
              (delays ++ [RETRY_DELAY_MS * attempt]) (made + 1)
          else
            { result := .raised e, delays := delays, attemptsMade := made + 1 }

/-- `GupshupApiClient.sendMessage` (api-client.ts lines 169-273) viewed
through its per-attempt outcomes: `maxAttempts = retry ? MAX_RETRIES : 1`,
attempts counted from 1. -/
def apiSendMessage (retry : Bool) (outcomes : Nat → AttemptOutcome) : LoopTrace :=
  let maxAttempts := if retry then MAX_RETRIES else 1
  sendLoop outcomes maxAttempts maxAttempts 1 none [] 0

/-- `retryNow` only arises strictly below the attempt limit. -/
lemma tryBody_retryNow_lt {o : AttemptOutcome} {attempt maxA : Nat}
    (h : tryBody o attempt maxA = .retryNow) : attempt < maxA := by
  cases o with
  | thrownErr e => exact absurd h (by simp [tryBody])
  | response statusCode body =>
      by_cases hlt : attempt < maxA
      · exact hlt
      · exfalso
        unfold tryBody at h
        simp only [if_neg hlt] at h
        split_ifs at h
        all_goals first
          | exact TryResult.noConfusion h
          | (cases hbe : body.error <;> (rw [hbe] at h; exact TryResult.noConfusion h))

/-- The attempt counter in the trace never decreases. -/
lemma sendLoop_made_mono (outcomes : Nat → AttemptOutcome) (maxA : Nat) :
    ∀ fuel attempt lastError delays made,
      made ≤ (sendLoop outcomes maxA fuel attempt lastError delays made).attemptsMade := by
  intro fuel
  induction fuel with
  | zero => intro attempt lastError delays made; simp [sendLoop]
  | succ n ih =>
      intro attempt lastError delays made
      unfold sendLoop
      cases h : tryBody (outcomes attempt) attempt maxA with
      | ret body => simp
      | retryNow =>
          exact le_trans (Nat.le_succ made)
            (ih (attempt + 1) lastError (delays ++ [RETRY_DELAY_MS * attempt]) (made + 1))
      | raised e =>
          by_cases hnr : nonRetryableCode e
          · simp [hnr]
          · by_cases hlt : attempt < maxA
            · simp only [hnr, hlt, if_true, if_false, Bool.false_eq_true]
              exact le_trans (Nat.le_succ made)
                (ih (attempt + 1) (some e) (delays ++ [RETRY_DELAY_MS * attempt]) (made + 1))
            · simp [hnr, hlt]

/-- With fuel remaining, at least one further attempt is always made. -/
lemma sendLoop_made_succ (outcomes : Nat → AttemptOutcome) (maxA : Nat)
    (fuel attempt : Nat) (lastError : Option JsError) (delays : List Nat) (made : Nat) :
    made + 1 ≤ (sendLoop outcomes maxA (fuel + 1) attempt lastError delays made).attemptsMade := by
  unfold sendLoop
  cases h : tryBody (outcomes attempt) attempt maxA with
  | ret body => simp
  | retryNow =>
      exact sendLoop_made_mono outcomes maxA fuel (attempt + 1) lastError
        (delays ++ [RETRY_DELAY_MS * attempt]) (made + 1)
  | raised e =>
      by_cases hnr : nonRetryableCode e
      · simp [hnr]
      · by_cases hlt : attempt < maxA
        · simp only [hnr, hlt, if_true, if_false, Bool.false_eq_true]
          exact sendLoop_made_mono outcomes maxA fuel (attempt + 1) (some e)
            (delays ++ [RETRY_DELAY_MS * attempt]) (made + 1)
        · simp [hnr, hlt]

/-- Shape invariant of the retry loop: starting attempt `attempt` with the
backoff trace of the earlier attempts, the final trace stays within
`maxAttempts` attempts and its delays are exactly the linear backoffs
`RETRY_DELAY_MS * i` for the attempts `i` after which the loop retried. -/
lemma sendLoop_shape (outcomes : Nat → AttemptOutcome) (maxA : Nat) :
    ∀ fuel attempt lastError delays made,
      fuel + attempt = maxA + 1 → 1 ≤ attempt → attempt ≤ maxA →
      made = attempt - 1 →
      delays = (List.range (attempt - 1)).map (fun i => RETRY_DELAY_MS * (i + 1)) →
      (sendLoop outcomes maxA fuel attempt lastError delays made).attemptsMade ≤ maxA
      ∧ (sendLoop outcomes maxA fuel attempt lastError delays made).delays =
          (List.range
            ((sendLoop outcomes maxA fuel attempt lastError delays made).attemptsMade - 1)).map
            (fun i => RETRY_DELAY_MS * (i + 1)) := by
  intro fuel
  induction fuel with
  | zero => intro attempt lastError delays made hfuel h1 hle _ _; omega
  | succ n ih =>
      intro attempt lastError delays made hfuel h1 hle hmade hdelays
      subst hmade hdelays
      have harg : (List.range (attempt - 1)).map (fun i => RETRY_DELAY_MS * (i + 1)) ++
          [RETRY_DELAY_MS * attempt] =
          (List.range (attempt + 1 - 1)).map (fun i => RETRY_DELAY_MS * (i + 1)) := by
        have h2 : attempt + 1 - 1 = (attempt - 1) + 1 := by omega
        rw [h2, List.range_succ, List.map_append]
        simp only [List.map_cons, List.map_nil]
        have h3 : attempt - 1 + 1 = attempt := by omega
        rw [h3]
      unfold sendLoop
      cases h : tryBody (outcomes attempt) attempt maxA with
      | ret body =>
          constructor
          · exact (by omega : attempt - 1 + 1 ≤ maxA)
          · rfl
      | retryNow =>
          have hlt := tryBody_retryNow_lt h
          have hrec := ih (attempt + 1) lastError
            ((List.range (attempt + 1 - 1)).map (fun i => RETRY_DELAY_MS * (i + 1)))
            (attempt + 1 - 1) (by omega) (by omega) (by omega) rfl rfl
          rw [harg]
          have hm : attempt - 1 + 1 = attempt + 1 - 1 := by omega
          rw [hm]
          exact hrec
      | raised e =>
          by_cases hnr : nonRetryableCode e
          · simp only [hnr, if_true]
            constructor
            · exact (by omega : attempt - 1 + 1 ≤ maxA)
            · rfl
          · by_cases hlt : attempt < maxA
            · simp only [hnr, hlt, if_true, if_false, Bool.false_eq_true]
              have hrec := ih (attempt + 1) (some e)
                ((List.range (attempt + 1 - 1)).map (fun i => RETRY_DELAY_MS * (i + 1)))
                (attempt + 1 - 1) (by omega) (by omega) (by omega) rfl rfl
              rw [harg]
              have hm : attempt - 1 + 1 = attempt + 1 - 1 := by omega
              rw [hm]
              exact hrec
            · simp only [hnr, hlt, if_false, Bool.false_eq_true]
              constructor
              · exact (by omega : attempt - 1 + 1 ≤ maxA)
              · rfl

/-- One-step unfolding of the retry loop with fuel remaining. -/
lemma sendLoop_succ (outcomes : Nat → AttemptOutcome) (maxAttempts fuel attempt : Nat)
    (lastError : Option JsError) (delays : List Nat) (made : Nat) :
    sendLoop outcomes maxAttempts (fuel + 1) attempt lastError delays made =
      match tryBody (outcomes attempt) attempt maxAttempts with
      | .ret body => { result := .ok body, delays := delays, attemptsMade := made + 1 }
      | .retryNow =>
          sendLoop outcomes maxAttempts fuel (attempt + 1) lastError
            (delays ++ [RETRY_DELAY_MS * attempt]) (made + 1)
      | .raised e =>
          if nonRetryableCode e then
            { result := .raised e, delays := delays, attemptsMade := made + 1 }
          else if attempt < maxAttempts then
            sendLoop outcomes maxAttempts fuel (attempt + 1) (some e)
              (delays ++ [RETRY_DELAY_MS * attempt]) (made + 1)
          else
            { result := .raised e, delays := delays, attemptsMade := made + 1 } := rfl

/-- Outcomes the retry loop treats as transient: HTTP 429; HTTP >= 500 whose
body does not embed provider error code "470"; and thrown errors whose code
is not `AUTH_FAILED`/`SESSION_EXPIRED`. -/
def isTransient : AttemptOutcome → Bool
  | .response statusCode body =>
      statusCode == 429 || (decide (500 ≤ statusCode) && !(bodyHasError470 body))
  | .thrownErr e => !(nonRetryableCode e)

/-- Below the attempt limit, a transient outcome makes the iteration either
continue directly (429/>=500) or throw an error the catch block retries. -/
lemma isTransient_step {o : AttemptOutcome} {attempt maxA : Nat}
    (ht : isTransient o = true) (hlt : attempt < maxA) :
    tryBody o attempt maxA = .retryNow ∨
      ∃ e, tryBody o attempt maxA = .raised e ∧ nonRetryableCode e = false := by
  cases o with
  | thrownErr e =>
      right
      refine ⟨e, rfl, ?_⟩
      simpa [isTransient] using ht
  | response statusCode body =>
      simp only [isTransient, Bool.or_eq_true, beq_iff_eq, Bool.and_eq_true,
        decide_eq_true_eq, Bool.not_eq_true'] at ht
      rcases ht with h429 | ⟨h500, h470⟩
      · left
        simp [tryBody, h429, hlt]
      · left
        have hn429 : ¬ statusCode = 429 := by omega
        have hn4x : ¬ (statusCode = 401 ∨ statusCode = 403) := by omega
        have hn470 : ¬ (statusCode = 470 ∨ bodyHasError470 body = true) := by
          rintro (h | h)
          · omega
          · rw [h470] at h
            exact Bool.noConfusion h
        simp [tryBody, hn429, hn4x, hn470, h500, hlt]

/-- At the attempt limit, a transient outcome throws a retryable-coded error
(rate-limited, server-error, or the network error itself). -/
lemma isTransient_last {o : AttemptOutcome} {attempt maxA : Nat}
    (ht : isTransient o = true) (hge : ¬ attempt < maxA) :
    ∃ e, tryBody o attempt maxA = .raised e ∧ nonRetryableCode e = false := by
  cases o with
  | thrownErr e =>
      refine ⟨e, rfl, ?_⟩
      simpa [isTransient] using ht
  | response statusCode body =>
      simp only [isTransient, Bool.or_eq_true, beq_iff_eq, Bool.and_eq_true,
        decide_eq_true_eq, Bool.not_eq_true'] at ht
      rcases ht with h429 | ⟨h500, h470⟩
      · refine ⟨createApiError "Rate limited" "RATE_LIMITED" (some 429), ?_, rfl⟩
        simp [tryBody, h429, hge]
      · refine ⟨createApiError ("Server error: " ++ toString statusCode)
          "SERVER_ERROR" (some statusCode), ?_, rfl⟩
        have hn429 : ¬ statusCode = 429 := by omega
        have hn4x : ¬ (statusCode = 401 ∨ statusCode = 403) := by omega
        have hn470 : ¬ (statusCode = 470 ∨ bodyHasError470 body = true) := by
          rintro (h | h)
          · omega
          · rw [h470] at h
            exact Bool.noConfusion h
        simp [tryBody, hn429, hn4x, hn470, h500, hge]

/-- A transient outcome at the final attempt (`maxA = 3`, `fuel = 1`)
terminates the loop with the error of that attempt's classification. -/
lemma sendLoop_transient_final (outcomes : Nat → AttemptOutcome)
    (h3 : isTransient (outcomes 3) = true) (lastError : Option JsError)
    (delays : List Nat) (made : Nat) :
    ∃ e, tryBody (outcomes 3) 3 3 = .raised e ∧
      sendLoop outcomes 3 1 3 lastError delays made =
        { result := .raised e, delays := delays, attemptsMade := made + 1 } := by
  obtain ⟨e, he, hnr⟩ := @isTransient_last (outcomes 3) 3 3 h3 (by omega)
  refine ⟨e, he, ?_⟩
  unfold sendLoop
  rw [he]
  simp [hnr]

/-- A transient outcome one step below the final attempt retries once with
the `2 × RETRY_DELAY_MS` backoff and finishes at the final attempt. -/
lemma sendLoop_transient_two (outcomes : Nat → AttemptOutcome)
    (h2 : isTransient (outcomes 2) = true) (h3 : isTransient (outcomes 3) = true)
    (lastError : Option JsError) (delays : List Nat) (made : Nat) :
    ∃ e, tryBody (outcomes 3) 3 3 = .raised e ∧
      sendLoop outcomes 3 2 2 lastError delays made =
        { result := .raised e, delays := delays ++ [RETRY_DELAY_MS * 2],
          attemptsMade := made + 2 } := by
  rcases isTransient_step h2 (by omega : (2 : Nat) < 3) with hstep | ⟨e2, he2, hnr2⟩
  · obtain ⟨e, he, hfin⟩ := sendLoop_transient_final outcomes h3 lastError
      (delays ++ [RETRY_DELAY_MS * 2]) (made + 1)
    refine ⟨e, he, ?_⟩
    unfold sendLoop
    rw [hstep]
    exact hfin
  · obtain ⟨e, he, hfin⟩ := sendLoop_transient_final outcomes h3 (some e2)
      (delays ++ [RETRY_DELAY_MS * 2]) (made + 1)
    refine ⟨e, he, ?_⟩
    unfold sendLoop
    rw [he2]
    simp only [hnr2, Bool.false_eq_true, if_false, (by omega : (2 : Nat) < 3), if_true]
    exact hfin

/-- A transient outcome on every attempt runs all three attempts, with
backoffs `RETRY_DELAY_MS * 1` and `RETRY_DELAY_MS * 2`, and throws the error
of the final attempt's classification. -/
lemma sendLoop_transient_all (outcomes : Nat → AttemptOutcome)
    (h1 : isTransient (outcomes 1) = true) (h2 : isTransient (outcomes 2) = true)
    (h3 : isTransient (outcomes 3) = true) :
    ∃ e, tryBody (outcomes 3) 3 3 = .raised e ∧
      sendLoop outcomes 3 3 1 none [] 0 =
        { result := .raised e, delays := [RETRY_DELAY_MS * 1, RETRY_DELAY_MS * 2],
          attemptsMade := 3 } := by
  rcases isTransient_step h1 (by omega : (1 : Nat) < 3) with hstep | ⟨e1, he1, hnr1⟩
  · obtain ⟨e, he, hfin⟩ := sendLoop_transient_two outcomes h2 h3 none
      [RETRY_DELAY_MS * 1] 1
    refine ⟨e, he, ?_⟩
    unfold sendLoop
    rw [hstep]
    simpa using hfin
  · obtain ⟨e, he, hfin⟩ := sendLoop_transient_two outcomes h2 h3 (some e1)
      [RETRY_DELAY_MS * 1] 1
    refine ⟨e, he, ?_⟩
    unfold sendLoop
    rw [he1]
    simp only [hnr1, Bool.false_eq_true, if_false, (by omega : (1 : Nat) < 3), if_true]
    simpa using hfin

/- ------------------------------------------------------------------ -/
/- C4 (amended): retry policy of the delivery client -/

/-- C4 (amended): with retry enabled, `GupshupApiClient.sendMessage` makes
at most `MAX_RETRIES = 3` HTTP attempts; the backoff delays performed are
exactly `attempt × 1000 ms` for the attempts after which it retried, linear
with the attempt counted from 1; a transient outcome (HTTP 429, HTTP >= 500
without an embedded provider error code "470", or a thrown error without a
non-retryable code) on attempt 1 forces a second attempt; and when all three
attempts are transient, exactly three attempts run with delays
`[1000, 2000]` and the last encountered error — the one raised by the final
attempt's classification — is thrown. -/
theorem apiSendMessage_retry_policy (outcomes : Nat → AttemptOutcome) :
    (apiSendMessage true outcomes).attemptsMade ≤ 3
    ∧ (apiSendMessage true outcomes).delays =
        (List.range ((apiSendMessage true outcomes).attemptsMade - 1)).map
          (fun i => RETRY_DELAY_MS * (i + 1))
    ∧ (isTransient (outcomes 1) = true →
        2 ≤ (apiSendMessage true outcomes).attemptsMade)
    ∧ (isTransient (outcomes 1) = true → isTransient (outcomes 2) = true →
        isTransient (outcomes 3) = true →
        (apiSendMessage true outcomes).attemptsMade = 3
        ∧ (apiSendMessage true outcomes).delays = [1000, 2000]
        ∧ ∃ e, tryBody (outcomes 3) 3 3 = .raised e
            ∧ (apiSendMessage true outcomes).result = .raised e) := by
  have hshape := sendLoop_shape outcomes 3 3 1 none [] 0 (by omega) (by omega)
    (by omega) rfl rfl
  refine ⟨hshape.1, hshape.2, ?_, ?_⟩
  · intro ht
    show 2 ≤ (sendLoop outcomes 3 3 1 none [] 0).attemptsMade
    rcases isTransient_step ht (by omega : (1 : Nat) < 3) with hstep | ⟨e1, he1, hnr1⟩
    · unfold sendLoop
      rw [hstep]
      exact sendLoop_made_succ outcomes 3 1 2 none [RETRY_DELAY_MS * 1] 1
    · unfold sendLoop
      rw [he1]
      simp only [hnr1, Bool.false_eq_true, if_false, (by omega : (1 : Nat) < 3), if_true]
      exact sendLoop_made_succ outcomes 3 1 2 (some e1) [RETRY_DELAY_MS * 1] 1
  · intro ht1 ht2 ht3
    obtain ⟨e, he, hloop⟩ := sendLoop_transient_all outcomes ht1 ht2 ht3
    have happ : apiSendMessage true outcomes =
        { result := .raised e, delays := [RETRY_DELAY_MS * 1, RETRY_DELAY_MS * 2],
          attemptsMade := 3 } := hloop
    rw [happ]
    exact ⟨rfl, rfl, e, he, rfl⟩

/-- Attempt outcomes that always fail at the network level (for the C4
witness): each attempt throws a codeless network error naming its attempt. -/
def networkFailOutcomes : Nat → AttemptOutcome :=
  fun attempt =>
    .thrownErr { name := "TypeError", message := "fetch failed " ++ toString attempt }

/-- Witness for C4 (amended): three network failures produce exactly three
attempts, backoffs `[1000, 2000]`, and throw the attempt-3 error. -/
theorem apiSendMessage_retry_policy_witness :
    (apiSendMessage true networkFailOutcomes).attemptsMade = 3
    ∧ (apiSendMessage true networkFailOutcomes).delays = [1000, 2000]
    ∧ (apiSendMessage true networkFailOutcomes).result =
        .raised { name := "TypeError", message := "fetch failed 3" } := by
  have h := (apiSendMessage_retry_policy networkFailOutcomes).2.2.2
    (by decide) (by decide) (by decide)
  obtain ⟨hmade, hdelays, e, he, hres⟩ := h
  refine ⟨hmade, hdelays, ?_⟩
  have he2 : e = { name := "TypeError", message := "fetch failed 3" } := by
    have : tryBody (networkFailOutcomes 3) 3 3 =
        .raised { name := "TypeError", message := "fetch failed 3" } := by decide
    rw [this] at he
    exact (TryResult.raised.injEq _ _).mp he.symm
  rw [hres, he2]

/-- Body of the C4 counterexample: HTTP 500 whose JSON body embeds provider
error code "470". -/
def serverError470Body : GupshupSendResponse :=
  { status := "error", error := some { code := "470", message := "session window closed" } }

/-- Outcome sequence for the C4 counterexample. -/
def serverError470Outcomes : Nat → AttemptOutcome :=
  fun _ => .response 500 serverError470Body

/-- C4 counterexample: an HTTP 500 response whose body embeds provider error
code "470" is not retried — the session-expired classification (checked
before the >= 500 check) throws immediately on attempt 1 with no backoff,
contradicting the claim that every HTTP >= 500 outcome is retried with
linear backoff. -/
theorem server_error_embedded470_not_retried :
    apiSendMessage true serverError470Outcomes =
      { result := .raised (createApiError
          "Session expired. User must message first or use a template."
          "SESSION_EXPIRED" (some 470)),
        delays := [], attemptsMade := 1 } := by decide

/- ------------------------------------------------------------------ -/
/- C2 (amended): error classification of the delivery client -/

/-- C2 (amended): per attempt, `sendMessage` surfaces HTTP 401/403 as an
authentication error immediately (no further attempt, no backoff); HTTP 470
or an embedded provider error code "470" (the HTTP status not being
429/401/403, which are checked first) as a session-expired error
immediately; and any other provider-reported application error (body status
"error" with an error object, HTTP status below 500 and none of the above)
is thrown as a `GupshupApiError` carrying the provider's code and message
but treated as transient: below the attempt limit the loop retries it after
the linear backoff, and only on the final attempt is it surfaced. -/
theorem apiClient_error_classification (outcomes : Nat → AttemptOutcome)
    (maxA fuel attempt : Nat) (lastError : Option JsError) (delays : List Nat)
    (made : Nat) (statusCode : Nat) (body : GupshupSendResponse)
    (houtcome : outcomes attempt = .response statusCode body) :
    ((statusCode = 401 ∨ statusCode = 403) →
      sendLoop outcomes maxA (fuel + 1) attempt lastError delays made =
        { result := .raised (createApiError
            "Authentication failed. Check your API key." "AUTH_FAILED"
            (some statusCode)),
          delays := delays, attemptsMade := made + 1 })
    ∧ (statusCode ≠ 429 → statusCode ≠ 401 → statusCode ≠ 403 →
        (statusCode = 470 ∨ bodyHasError470 body = true) →
        sendLoop outcomes maxA (fuel + 1) attempt lastError delays made =
          { result := .raised (createApiError
              "Session expired. User must message first or use a template."
              "SESSION_EXPIRED" (some 470)),
            delays := delays, attemptsMade := made + 1 })
    ∧ (∀ err, statusCode ≠ 429 → statusCode ≠ 401 → statusCode ≠ 403 →
        statusCode ≠ 470 → statusCode < 500 → bodyHasError470 body = false →
        body.status = "error" → body.error = some err →
        err.code ≠ "AUTH_FAILED" → err.code ≠ "SESSION_EXPIRED" →
        ((attempt < maxA →
          sendLoop outcomes maxA (fuel + 1) attempt lastError delays made =
            sendLoop outcomes maxA fuel (attempt + 1)
              (some (createApiError err.message err.code (some statusCode)))
              (delays ++ [RETRY_DELAY_MS * attempt]) (made + 1))
        ∧ (¬ attempt < maxA →
          sendLoop outcomes maxA (fuel + 1) attempt lastError delays made =
            { result := .raised (createApiError err.message err.code (some statusCode)),
              delays := delays, attemptsMade := made + 1 }))) := by
  refine ⟨?_, ?_, ?_⟩
  · intro h4x
    have hn429 : ¬ statusCode = 429 := by omega
    have htb : tryBody (.response statusCode body) attempt maxA =
        .raised (createApiError "Authentication failed. Check your API key."
          "AUTH_FAILED" (some statusCode)) := by
      simp [tryBody, hn429, h4x]
    have hnr : nonRetryableCode (createApiError
        "Authentication failed. Check your API key." "AUTH_FAILED"
        (some statusCode)) = true := rfl
    rw [sendLoop_succ, houtcome, htb]
    simp [hnr]
  · intro hn429 hn401 hn403 h470
    have hn4x : ¬ (statusCode = 401 ∨ statusCode = 403) := by omega
    have htb : tryBody (.response statusCode body) attempt maxA =
        .raised (createApiError
          "Session expired. User must message first or use a template."
          "SESSION_EXPIRED" (some 470)) := by
      simp [tryBody, hn429, hn4x, h470]
    have hnr : nonRetryableCode (createApiError
        "Session expired. User must message first or use a template."
        "SESSION_EXPIRED" (some 470)) = true := rfl
    rw [sendLoop_succ, houtcome, htb]
    simp [hnr]
  · intro err hn429 hn401 hn403 hn470 hlt500 hnb470 hstatus herr hnca hncs
    have hn4x : ¬ (statusCode = 401 ∨ statusCode = 403) := by omega
    have hn470x : ¬ (statusCode = 470 ∨ bodyHasError470 body = true) := by
      rintro (h | h)
      · exact hn470 h
      · rw [hnb470] at h
        exact Bool.noConfusion h
    have hn500 : ¬ (500 ≤ statusCode) := by omega
    have htb : tryBody (.response statusCode body) attempt maxA =
        .raised (createApiError err.message err.code (some statusCode)) := by
      simp [tryBody, hn429, hn4x, hn470x, hn500, hstatus, herr]
    have hnr : nonRetryableCode (createApiError err.message err.code
        (some statusCode)) = false := by
      simp only [nonRetryableCode, createApiError, Bool.or_eq_false_iff]
      constructor
      · simpa using hnca
      · simpa using hncs
    constructor
    · intro hlt
      rw [sendLoop_succ, houtcome, htb]
      simp [hnr, hlt]
    · intro hge
      rw [sendLoop_succ, houtcome, htb]
      simp [hnr, hge]

/-- Witness for C2 (amended): a concrete HTTP 401 on attempt 1 is surfaced
immediately as the authentication error, after exactly one attempt and no
backoff. -/
theorem apiClient_error_classification_witness :
    sendLoop (fun _ => .response 401 { status := "error" }) 3 3 1 none [] 0 =
      { result := .raised (createApiError
          "Authentication failed. Check your API key." "AUTH_FAILED" (some 401)),
        delays := [], attemptsMade := 1 } :=
  (apiClient_error_classification (fun _ => .response 401 { status := "error" })
    3 2 1 none [] 0 401 { status := "error" } rfl).1 (Or.inl rfl)

/-- Body of the C2 counterexample: a provider application error
(HTTP 200, body status "error", provider code "1002"). -/
def appErrorBody : GupshupSendResponse :=
  { status := "error", error := some { code := "1002", message := "number does not exist" } }

/-- Outcome sequence for the C2 counterexample: attempt 1 reports the
provider application error; attempts 2 and 3 succeed. -/
def appErrorThenOkOutcomes : Nat → AttemptOutcome :=
  fun attempt =>
    if attempt = 1 then .response 200 appErrorBody
    else .response 200 { status := "submitted", messageId := some "mid-1" }

/-- C2 counterexample: the provider-reported application error on attempt 1
is not surfaced on the attempt it occurs — the loop retries after a 1000 ms
backoff and the overall send succeeds on attempt 2, so no `ApiError` with
the provider's code "1002" is raised at all. -/
theorem app_error_retried_not_surfaced :
    apiSendMessage true appErrorThenOkOutcomes =
      { result := .ok { status := "submitted", messageId := some "mid-1" },
        delays := [1000], attemptsMade := 2 } := by decide

/- ------------------------------------------------------------------ -/
/- Channel orchestrator: sendMessage and the template fallback
   (gupshup-channel.ts) -/

/-- `TemplateConfig` (types.ts). -/
structure TemplateConfig where
  id : String
  paramCount : Option Nat := none
deriving DecidableEq

/-- `ResolvedAccount` (types.ts).  The `templates` record is modelled as an
association list in JavaScript object key order (`Object.keys` order), and
kept optional as in the source. -/
structure ResolvedAccount where
  name : String
  apiKey : String
  appId : String
  phoneNumber : String
  businessName : String
  webhookSecret : Option String := none
  templates : Option (List (String × TemplateConfig)) := none
deriving DecidableEq

/-- `SendResult` (types.ts). -/
structure SendResult where
  success : Bool
  messageId : Option String := none
  error : Option String := none
deriving DecidableEq

/-- Result of one API-client call as seen by the channel: the resolved
response, or the thrown error. -/
inductive ApiOutcome where
  | ok (resp : GupshupSendResponse)
  | raised (e : JsError)

/-- The template parameter construction in
`GupshupChannel.sendTemplateMessage` (gupshup-channel.ts lines 315-317):
`template.paramCount ? [text.substring(0, 1024)] : undefined`, with
`text = envelope.content.text ?? '[Message]'`; a `paramCount` of 0 is falsy
in JavaScript. -/
def templateParams (envelope : MessageEnvelope) (template : TemplateConfig) :
    Option (List String) :=
  match template.paramCount with
  | some n => if n ≠ 0 then some [(envelope.content.text.getD "[Message]").take 1024]
              else none
  | none => none

/-- `GupshupChannel.sendTemplateMessage` (gupshup-channel.ts lines 289-338).
`sendTemplate id params` is the oracle for `apiClient.sendTemplate`.  With
the association-list model of the templates record, the first key always
has a value, so the source's dead `'No valid template found'` branch (a
record key mapped to `undefined`) cannot arise. -/
def sendTemplateMessage (envelope : MessageEnvelope) (account : ResolvedAccount)
    (sendTemplate : String → Option (List String) → ApiOutcome) : SendResult :=
  match account.templates with
  | none =>
      { success := false,
        error := some "Session expired. No templates configured for out-of-session messaging." }
  | some templates =>
    match templates with
    | [] =>
        { success := false,
          error := some "Session expired. No templates configured for out-of-session messaging." }
    | (_, template) :: _ =>
        match sendTemplate template.id (templateParams envelope template) with
        | .ok response =>
            { success := response.status = "submitted",
              messageId := response.messageId,
              error := response.error.map (fun (e : ResponseError) => e.message) }
        | .raised e =>
            { success := false,
              error := some ("Template send failed: " ++ e.message) }

/-- The account-name resolution in `GupshupChannel.sendMessage`
(gupshup-channel.ts lines 229-232): envelope metadata, else the configured
default, else the first resolved account's name. -/
def resolveAccountName (envelope : MessageEnvelope) (defaultAccount : Option String)
    (accounts : List ResolvedAccount) : Option String :=
  envelope.metadataAccount <|> defaultAccount <|>
    (accounts.head?).map (fun (a : ResolvedAccount) => a.name)

/-- `GupshupChannel.sendMessage` (gupshup-channel.ts lines 211-284).
`configSet` is whether `initialize` ran (`this.config` non-null; the API
client map then has one entry per resolved account, so its emptiness
coincides with `accounts.isEmpty`).  `send` is the oracle for
`apiClient.sendMessage` on the transformed wire message, `sendTemplate` the
oracle for `apiClient.sendTemplate`.  A thrown `transformOutbound` error and
a thrown send error are both caught by the same catch block; only a caught
error whose `code` property is `SESSION_EXPIRED` diverts into the template
fallback. -/
def channelSendMessage (configSet connected : Bool)
    (defaultAccount : Option String) (accounts : List ResolvedAccount)
    (sessions : SessionMap) (now : Nat) (envelope : MessageEnvelope)
    (send : GupshupOutboundMessage → ApiOutcome)
    (sendTemplate : String → Option (List String) → ApiOutcome) : SendResult :=
  if !configSet || accounts.isEmpty then
    { success := false, error := some "Channel not initialized" }
  else if !connected then
    { success := false, error := some "Channel not connected" }
  else
    let destination := envelope.recipient.id
    let accountName := resolveAccountName envelope defaultAccount accounts
    let account := match accountName with
      | some n => accounts.find? (fun a => a.name = n)
      | none => none
    match account with
    | none =>
        { success := false,
          error := some ("Account \x27" ++ accountName.getD "undefined" ++
            "\x27 not found") }
    | some account =>
        if !(getSession sessions now destination).isActive then
          sendTemplateMessage envelope account sendTemplate
        else
          match transformOutbound envelope with
          | .error msg =>
              { success := false, error := some msg }
          | .ok gupshupMessage =>
              match send gupshupMessage with
              | .ok response =>
                  { success := response.status = "submitted",
                    messageId := response.messageId,
                    error := response.error.map (fun (e : ResponseError) => e.message) }
              | .raised e =>
                  if e.code = some "SESSION_EXPIRED" then
                    sendTemplateMessage envelope account sendTemplate
                  else
                    { success := false, error := some e.message }

/- ------------------------------------------------------------------ -/
/- C10: no session and no templates -/

/-- C10: a send to a destination with no recorded session, on a resolved
account with no configured templates (absent or empty record), returns
exactly `success := false` with the literal no-templates error, with no
message id. -/
theorem no_session_no_templates (defaultAccount : Option String)
    (accounts : List ResolvedAccount) (sessions : SessionMap) (now : Nat)
    (envelope : MessageEnvelope) (send : GupshupOutboundMessage → ApiOutcome)
    (sendTemplate : String → Option (List String) → ApiOutcome)
    (account : ResolvedAccount)
    (hne : accounts ≠ [])
    (hfind : (match resolveAccountName envelope defaultAccount accounts with
      | some n => accounts.find? (fun a => a.name = n)
      | none => none) = some account)
    (hsess : sessions (normalizePhone envelope.recipient.id) = none)
    (htmpl : account.templates = none ∨ account.templates = some []) :
    channelSendMessage true true defaultAccount accounts sessions now envelope
        send sendTemplate =
      { success := false, messageId := none,
        error := some "Session expired. No templates configured for out-of-session messaging." } := by
  have hempty : accounts.isEmpty = false := by
    cases accounts with
    | nil => exact absurd rfl hne
    | cons a l => rfl
  have hact : (getSession sessions now envelope.recipient.id).isActive = false := by
    simp [getSession, hsess]
  rcases htmpl with h | h <;>
    simp [channelSendMessage, hempty, hfind, hact, sendTemplateMessage, h]

/-- An account with no templates, for the C10 witness. -/
def templatelessAccount : ResolvedAccount :=
  { name := "default", apiKey := "k", appId := "app-1",
    phoneNumber := "15550001111", businessName := "Assistant" }

/-- Witness for C10: the concrete text envelope sent through the
templateless default account with an empty session map yields exactly the
no-templates failure. -/
theorem no_session_no_templates_witness :
    channelSendMessage true true none [templatelessAccount] (fun _ => none) 50
        exampleTextEnvelope (fun _ => .ok { status := "submitted" })
        (fun _ _ => .ok { status := "submitted" }) =
      { success := false, messageId := none,
        error := some "Session expired. No templates configured for out-of-session messaging." } :=
  no_session_no_templates none [templatelessAccount] (fun _ => none) 50
    exampleTextEnvelope (fun _ => .ok { status := "submitted" })
    (fun _ _ => .ok { status := "submitted" }) templatelessAccount
    (by decide) rfl rfl (Or.inl rfl)

/- ------------------------------------------------------------------ -/
/- C3: mid-flight session expiry falls back to the template path -/

/-- C3: when the local session is active but the delivery call throws an
error carrying code `SESSION_EXPIRED`, `sendMessage` takes the template
fallback within the same call — its result is exactly the template path's
result — and when the template send succeeds (provider status "submitted")
the overall result has `success := true`. -/
theorem session_expired_midflight_fallback (defaultAccount : Option String)
    (accounts : List ResolvedAccount) (sessions : SessionMap) (now : Nat)
    (envelope : MessageEnvelope) (send : GupshupOutboundMessage → ApiOutcome)
    (sendTemplate : String → Option (List String) → ApiOutcome)
    (account : ResolvedAccount) (wire : GupshupOutboundMessage) (e : JsError)
    (hne : accounts ≠ [])
    (hfind : (match resolveAccountName envelope defaultAccount accounts with
      | some n => accounts.find? (fun a => a.name = n)
      | none => none) = some account)
    (hactive : (getSession sessions now envelope.recipient.id).isActive = true)
    (htrans : transformOutbound envelope = .ok wire)
    (hraise : send wire = .raised e)
    (hcode : e.code = some "SESSION_EXPIRED") :
    channelSendMessage true true defaultAccount accounts sessions now envelope
        send sendTemplate =
      sendTemplateMessage envelope account sendTemplate
    ∧ (∀ key template rest response,
        account.templates = some ((key, template) :: rest) →
        sendTemplate template.id (templateParams envelope template) = .ok response →
        response.status = "submitted" →
        (channelSendMessage true true defaultAccount accounts sessions now envelope
          send sendTemplate).success = true) := by
  have hempty : accounts.isEmpty = false := by
    cases accounts with
    | nil => exact absurd rfl hne
    | cons a l => rfl
  have hmain : channelSendMessage true true defaultAccount accounts sessions now
      envelope send sendTemplate = sendTemplateMessage envelope account sendTemplate := by
    simp [channelSendMessage, hempty, hfind, hactive, htrans, hraise, hcode]
  refine ⟨hmain, ?_⟩
  intro key template rest response htmpl hsend hstatus
  rw [hmain]
  simp [sendTemplateMessage, htmpl, hsend, hstatus]

/-- An account with one configured template, for the C3 witness. -/
def templatedAccount : ResolvedAccount :=
  { name := "default", apiKey := "k", appId := "app-1",
    phoneNumber := "15550001111", businessName := "Assistant",
    templates := some [("greeting", TemplateConfig.mk "tpl-7" (some 1))] }

/-- A session map in which the C3 witness destination is active. -/
def activeSessions : SessionMap :=
  fun key => if key = "15551234567" then
    some { phone := "15551234567", lastMessageAt := 40, isActive := true }
  else none

/-- The thrown session-expired error used in the C3 witness. -/
def sessionExpiredJsError : JsError :=
  { name := "GupshupApiError"
    message := "Session expired. User must message first or use a template."
    code := some "SESSION_EXPIRED"
    statusCode := some 470 }

/-- The submitted template response used in the C3 witness. -/
def submittedTemplateResponse : GupshupSendResponse :=
  { status := "submitted", messageId := some "tmid-1" }

/-- Witness for C3: with an active local session, a send whose delivery call
throws `SESSION_EXPIRED` and whose template send submits yields an overall
`success := true`. -/
theorem session_expired_midflight_fallback_witness :
    (channelSendMessage true true none [templatedAccount] activeSessions 50
        exampleTextEnvelope
        (fun _ => ApiOutcome.raised sessionExpiredJsError)
        (fun _ _ => ApiOutcome.ok submittedTemplateResponse)).success = true :=
  (session_expired_midflight_fallback none [templatedAccount] activeSessions 50
    exampleTextEnvelope
    (fun _ => ApiOutcome.raised sessionExpiredJsError)
    (fun _ _ => ApiOutcome.ok submittedTemplateResponse)
    templatedAccount (.text "hello there") sessionExpiredJsError
    (by decide) rfl (by decide) rfl rfl rfl).2
    "greeting" (TemplateConfig.mk "tpl-7" (some 1)) []
    submittedTemplateResponse rfl rfl rfl

/- ------------------------------------------------------------------ -/
/- Account resolver (accounts.ts) -/

/-- Truthiness of an optional JavaScript string: present and nonempty. -/
def strTruthy : Option String → Bool
  | none => false
  | some s => !(s = "")

/-- `loadApiKey` (accounts.ts lines 148-168): a direct (truthy) credential
value wins; else a (truthy) file path is read and its content trimmed; else
no key.  `readFile path` models `readFileSync(expandPath(path), 'utf-8')`
(path expansion and the file system are environment effects); its
`Except.error` carries the underlying error message, which `loadApiKey`
wraps into its own thrown message. -/
def loadApiKey (readFile : String → Except String String)
    (apiKey apiKeyFile : Option String) : Except String (Option String) :=
  if strTruthy apiKey then .ok apiKey
  else if strTruthy apiKeyFile then
    match readFile (apiKeyFile.getD "") with
    | .ok content => .ok (some content.trim)
    | .error msg =>
        .error ("Failed to read API key from file \x27" ++ apiKeyFile.getD "" ++
          "\x27: " ++ msg)
  else .ok none

/-- `GupshupAccountConfig` (types.ts).  `appId` and `phoneNumber` are
required by the TypeScript type but re-checked at runtime (configuration
comes from loose input), so they are optional here; the template record is
an association list in object key order. -/
structure GupshupAccountConfig where
  apiKey : Option String := none
  apiKeyFile : Option String := none
  appId : Option String := none
  phoneNumber : Option String := none
  businessName : Option String := none
  webhookSecret : Option String := none
  templates : Option (List (String × TemplateConfig)) := none

/-- `GupshupConfig` (types.ts), the parent/top-level configuration. -/
structure GupshupConfig where
  apiKey : Option String := none
  apiKeyFile : Option String := none
  appId : Option String := none
  sourcePhone : Option String := none
  businessName : Option String := none
  webhookSecret : Option String := none
  webhookPath : Option String := none
  templates : Option (List (String × TemplateConfig)) := none
  dmPolicy : Option String := none
  allowFrom : Option (List String) := none
  accounts : Option (List (String × GupshupAccountConfig)) := none
  defaultAccount : Option String := none

/-- Record lookup on the association-list model of a JavaScript object. -/
def lookupRecord (record : List (String × TemplateConfig)) (key : String) :
    Option TemplateConfig :=
  (record.find? (fun entry => entry.1 = key)).map (fun entry => entry.2)

/-- The spread merge `{ ...parentConfig.templates, ...accountConfig.templates }`
(accounts.ts line 112) on the association-list model: parent keys in order
with account-level values overriding per key, then account-only keys in
order. -/
def mergeRecords (parent account : List (String × TemplateConfig)) :
    List (String × TemplateConfig) :=
  parent.map (fun entry =>
    (entry.1, match lookupRecord account entry.1 with
      | some v => v
      | none => entry.2)) ++
  account.filter (fun entry => (lookupRecord parent entry.1).isNone)

/-- `resolveAccount` (accounts.ts lines 82-114): credential from account
level falling back to parent (value preferred over file at each level),
`appId` and `phoneNumber` required at account level, display name falling
back through the parent to `'Assistant'`, webhook secret falling back to
the parent, templates spread-merged. -/
def resolveAccount (readFile : String → Except String String) (name : String)
    (accountConfig : GupshupAccountConfig) (parentConfig : GupshupConfig) :
    Except String ResolvedAccount :=
  match loadApiKey readFile (accountConfig.apiKey <|> parentConfig.apiKey)
      (accountConfig.apiKeyFile <|> parentConfig.apiKeyFile) with
  | .error msg => .error msg
  | .ok key =>
    if !strTruthy key then
      .error ("No API key configured for account \x27" ++ name ++ "\x27")
    else if !strTruthy accountConfig.appId then
      .error ("No appId configured for account \x27" ++ name ++ "\x27")
    else if !strTruthy accountConfig.phoneNumber then
      .error ("No phoneNumber configured for account \x27" ++ name ++ "\x27")
    else
      .ok { name := name
            apiKey := key.getD ""
            appId := accountConfig.appId.getD ""
            phoneNumber := accountConfig.phoneNumber.getD ""
            businessName :=
              (accountConfig.businessName <|> parentConfig.businessName).getD "Assistant"
            webhookSecret := accountConfig.webhookSecret <|> parentConfig.webhookSecret
            templates := some (mergeRecords (parentConfig.templates.getD [])
              (accountConfig.templates.getD [])) }

/-- First-match alternative on template lookups, written out to keep the
merge statement readable. -/
def altTemplate (a b : Option TemplateConfig) : Option TemplateConfig :=
  match a with
  | some v => some v
  | none => b

lemma lookupRecord_cons_self (k : String) (v : TemplateConfig)
    (rest : List (String × TemplateConfig)) :
    lookupRecord ((k, v) :: rest) k = some v := by
  simp [lookupRecord]

lemma lookupRecord_cons_ne {k1 key : String} (v : TemplateConfig)
    (rest : List (String × TemplateConfig)) (h : k1 ≠ key) :
    lookupRecord ((k1, v) :: rest) key = lookupRecord rest key := by
  simp [lookupRecord, h]

lemma lookupRecord_append (xs ys : List (String × TemplateConfig)) (key : String) :
    lookupRecord (xs ++ ys) key =
      altTemplate (lookupRecord xs key) (lookupRecord ys key) := by
  induction xs with
  | nil => simp [lookupRecord, altTemplate]
  | cons x xs ih =>
      rcases x with ⟨k1, v1⟩
      by_cases hx : k1 = key
      · subst hx
        simp [lookupRecord_cons_self, altTemplate]
      · simp only [List.cons_append, lookupRecord_cons_ne _ _ hx]
        exact ih

lemma lookupRecord_mapped (parent account : List (String × TemplateConfig)) (key : String) :
    lookupRecord (parent.map (fun entry =>
        (entry.1, match lookupRecord account entry.1 with
          | some v => v
          | none => entry.2))) key =
      match lookupRecord parent key with
      | some v => some (match lookupRecord account key with
          | some w => w
          | none => v)
      | none => none := by
  induction parent with
  | nil => simp [lookupRecord]
  | cons p ps ih =>
      rcases p with ⟨k1, v1⟩
      by_cases hp : k1 = key
      · subst hp
        simp only [List.map_cons, lookupRecord_cons_self]
      · simp only [List.map_cons, lookupRecord_cons_ne _ _ hp]
        exact ih

lemma lookupRecord_filtered (parent account : List (String × TemplateConfig))
    (key : String) (hp : lookupRecord parent key = none) :
    lookupRecord (account.filter (fun entry => (lookupRecord parent entry.1).isNone))
        key = lookupRecord account key := by
  induction account with
  | nil => rfl
  | cons a as ih =>
      rcases a with ⟨k1, v1⟩
      by_cases ha : k1 = key
      · subst ha
        have hkeep : (lookupRecord parent k1).isNone = true := by
          rw [hp]
          rfl
        rw [List.filter_cons_of_pos (by simpa using hkeep)]
        rw [lookupRecord_cons_self, lookupRecord_cons_self]
      · by_cases hkeep : (lookupRecord parent k1).isNone = true
        · rw [List.filter_cons_of_pos (by simpa using hkeep)]
          rw [lookupRecord_cons_ne _ _ ha, lookupRecord_cons_ne _ _ ha]
          exact ih
        · rw [List.filter_cons_of_neg (by simpa using hkeep)]
          rw [ih, lookupRecord_cons_ne _ _ ha]

/-- Lookup semantics of the spread merge: account-level entries take
precedence per key, parent entries fill in the rest. -/
lemma lookupRecord_merge (parent account : List (String × TemplateConfig))
    (key : String) :
    lookupRecord (mergeRecords parent account) key =
      altTemplate (lookupRecord account key) (lookupRecord parent key) := by
  unfold mergeRecords
  rw [lookupRecord_append, lookupRecord_mapped]
  cases hpar : lookupRecord parent key with
  | none =>
      rw [lookupRecord_filtered parent account key hpar]
      cases hacc : lookupRecord account key <;> rfl
  | some v =>
      cases hacc : lookupRecord account key <;> rfl

/- ------------------------------------------------------------------ -/
/- C7 (amended): account field resolution -/

/-- C7 (amended): on successful resolution, credential, display name, and
webhook secret take the account-level value when present and fall back to
the parent value otherwise (display name further defaulting to
`"Assistant"`); the app identifier and phone number are taken from the
account level only — a successful resolution always carries the nonempty
account-level values, with no parent fallback; and the templates record is
the per-key merge of parent and account templates with account-level
entries taking precedence. -/
theorem resolveAccount_precedence (readFile : String → Except String String)
    (name : String) (accountConfig : GupshupAccountConfig)
    (parentConfig : GupshupConfig) (r : ResolvedAccount)
    (h : resolveAccount readFile name accountConfig parentConfig = .ok r) :
    (∀ k, accountConfig.apiKey = some k → k ≠ "" → r.apiKey = k)
    ∧ (accountConfig.apiKey = none → accountConfig.apiKeyFile = none →
        ∀ k, parentConfig.apiKey = some k → k ≠ "" → r.apiKey = k)
    ∧ (∀ b, accountConfig.businessName = some b → r.businessName = b)
    ∧ (accountConfig.businessName = none →
        r.businessName = parentConfig.businessName.getD "Assistant")
    ∧ (∀ w, accountConfig.webhookSecret = some w → r.webhookSecret = some w)
    ∧ (accountConfig.webhookSecret = none →
        r.webhookSecret = parentConfig.webhookSecret)
    ∧ (∃ a, accountConfig.appId = some a ∧ a ≠ "" ∧ r.appId = a)
    ∧ (∃ p, accountConfig.phoneNumber = some p ∧ p ≠ "" ∧ r.phoneNumber = p)
    ∧ (∀ key, lookupRecord (r.templates.getD []) key =
        altTemplate (lookupRecord (accountConfig.templates.getD []) key)
          (lookupRecord (parentConfig.templates.getD []) key)) := by
  unfold resolveAccount at h
  cases hload : loadApiKey readFile (accountConfig.apiKey <|> parentConfig.apiKey)
      (accountConfig.apiKeyFile <|> parentConfig.apiKeyFile) with
  | error msg => rw [hload] at h; exact absurd h (by simp)
  | ok key =>
      rw [hload] at h
      by_cases h1 : strTruthy key
      swap
      · simp [h1] at h
      by_cases h2 : strTruthy accountConfig.appId
      swap
      · simp [h1, h2] at h
      by_cases h3 : strTruthy accountConfig.phoneNumber
      swap
      · simp [h1, h2, h3] at h
      simp only [h1, h2, h3, Bool.not_true, Bool.false_eq_true, if_false,
        Except.ok.injEq] at h
      subst h
      refine ⟨?_, ?_, ?_, ?_, ?_, ?_, ?_, ?_, ?_⟩
      · intro k hk hne
        rw [hk] at hload
        have hkey : key = some k := by
          unfold loadApiKey at hload
          rw [if_pos (by simp [strTruthy, hne] : strTruthy (some k <|> parentConfig.apiKey))] at hload
          simpa using hload.symm
        simp [hkey]
      · intro hak haf k hk hne
        rw [hak, haf, hk] at hload
        have hkey : key = some k := by
          unfold loadApiKey at hload
          rw [if_pos (by simp [strTruthy, hne] : strTruthy (none <|> some k))] at hload
          simpa using hload.symm
        simp [hkey]
      · intro b hb
        simp [hb]
      · intro hb
        simp [hb]
      · intro w hw
        simp [hw]
      · intro hw
        simp [hw]
      · cases haid : accountConfig.appId with
        | none => rw [haid] at h2; simp [strTruthy] at h2
        | some a =>
            rw [haid] at h2
            refine ⟨a, rfl, ?_, by simp⟩
            simpa [strTruthy] using h2
      · cases hph : accountConfig.phoneNumber with
        | none => rw [hph] at h3; simp [strTruthy] at h3
        | some p =>
            rw [hph] at h3
            refine ⟨p, rfl, ?_, by simp⟩
            simpa [strTruthy] using h3
      · intro key2
        simpa using lookupRecord_merge (parentConfig.templates.getD [])
          (accountConfig.templates.getD []) key2

/-- Parent configuration for the C7 counterexample: it carries an app id. -/
def c7Parent : GupshupConfig :=
  { apiKey := some "parent-key", appId := some "parent-app",
    sourcePhone := some "15550001111" }

/-- Account block for the C7 counterexample: no account-level app id. -/
def c7Account : GupshupAccountConfig :=
  { phoneNumber := some "15552223333" }

/-- C7 counterexample: with the app identifier missing at the account level
but present at the parent level, `resolveAccount` does not fall back to the
parent value — it fails with the no-appId error instead of producing an
account record, so the claimed per-field parent fallback does not hold. -/
theorem resolveAccount_no_appid_fallback :
    resolveAccount (fun _ => .error "ENOENT") "a1" c7Account c7Parent =
      .error "No appId configured for account \x27a1\x27" := by
  rfl

/-- Parent configuration for the C7 witness. -/
def c7wParent : GupshupConfig :=
  { apiKey := some "pk", businessName := some "Parent Biz",
    webhookSecret := some "psec",
    templates := some [("a", TemplateConfig.mk "parent-a" none)] }

/-- Account block for the C7 witness. -/
def c7wAccount : GupshupAccountConfig :=
  { apiKey := some "ak", appId := some "app-9",
    phoneNumber := some "15557778888",
    templates := some [("b", TemplateConfig.mk "acct-b" (some 1))] }

/-- The record the C7 witness resolves to. -/
def c7wResolved : ResolvedAccount :=
  { name := "acct", apiKey := "ak", appId := "app-9",
    phoneNumber := "15557778888", businessName := "Parent Biz",
    webhookSecret := some "psec",
    templates := some (mergeRecords [("a", TemplateConfig.mk "parent-a" none)]
      [("b", TemplateConfig.mk "acct-b" (some 1))]) }

/-- Witness for C7 (amended): account-level credential wins, display name
falls back to the parent, and both template entries are visible in the
merged record. -/
theorem resolveAccount_precedence_witness :
    c7wResolved.apiKey = "ak"
    ∧ c7wResolved.businessName = "Parent Biz"
    ∧ lookupRecord (c7wResolved.templates.getD []) "b" =
        some (TemplateConfig.mk "acct-b" (some 1))
    ∧ lookupRecord (c7wResolved.templates.getD []) "a" =
        some (TemplateConfig.mk "parent-a" none) := by
  have hp := resolveAccount_precedence (fun _ => .error "ENOENT") "acct"
    c7wAccount c7wParent c7wResolved rfl
  refine ⟨hp.1 "ak" rfl (by decide), (hp.2.2.2.1 rfl).trans rfl, ?_, ?_⟩
  · exact (hp.2.2.2.2.2.2.2.2 "b").trans rfl
  · exact (hp.2.2.2.2.2.2.2.2 "a").trans rfl

/- ------------------------------------------------------------------ -/
/- Webhook handler (webhook-handler.ts) -/

/-- HTTP response returned to the provider. -/
structure WebhookResponse where
  status : Nat
  body : String
deriving DecidableEq

/-- Outcome of `routePayload` together with the dispatched handlers: either
everything returned, or some error was thrown (its `name` property is what
the catch block inspects). -/
inductive RouteResult where
  | ok
  | raised (e : JsError)

/-- `WebhookHandler.validateSignature` (webhook-handler.ts lines 1180-1202):
HMAC-SHA256 over the raw body, hex-encoded (`hmacHex secret body` is the
digest oracle), compared to the supplied signature with a constant-time
comparison; a length mismatch, or any buffer failure, counts as inequality;
no (truthy) configured secret skips validation. -/
def validateSignature (hmacHex : String → String → String)
    (webhookSecret : Option String) (body signature : String) : Bool :=
  if !strTruthy webhookSecret then true
  else signature = hmacHex (webhookSecret.getD "") body

/-- `WebhookHandler.handleWebhook` (webhook-handler.ts lines 1051-1098),
generic in the parsed payload type: `parse` models `JSON.parse` (`none` is
the thrown `SyntaxError`), `route` models `routePayload` plus the dispatched
handlers.  Signature validation runs only when a secret is configured and a
signature header is present (both truthy); the catch block maps errors
named `SyntaxError` to HTTP 400 and swallows everything else into a 200
with a warning field. -/
def handleWebhook {α : Type} (parse : String → Option α) (route : α → RouteResult)
    (hmacHex : String → String → String) (webhookSecret : Option String)
    (body : String) (signature : Option String) : WebhookResponse :=
  match parse body with
  | none => { status := 400, body := "\x7b\"error\":\"Invalid JSON\"\x7d" }
  | some payload =>
    if strTruthy webhookSecret && strTruthy signature &&
        !validateSignature hmacHex webhookSecret body (signature.getD "") then
      { status := 401, body := "\x7b\"error\":\"Invalid signature\"\x7d" }
    else
      match route payload with
      | .ok => { status := 200, body := "\x7b\"status\":\"received\"\x7d" }
      | .raised e =>
          if e.name = "SyntaxError" then
            { status := 400, body := "\x7b\"error\":\"Invalid JSON\"\x7d" }
          else
            { status := 200,
              body := "\x7b\"status\":\"received\",\"warning\":\"Processing error\"\x7d" }

/- ------------------------------------------------------------------ -/
/- C8 (amended): webhook response statuses -/

/-- C8 (amended): `handleWebhook` returns 400 when the raw body fails JSON
parsing and also when processing after a successful parse throws an error
named `SyntaxError` (the catch block classifies parse failures by error
name); 401 when the body parses, a secret and a signature are both present
(truthy) and the signature differs from the HMAC digest; 200 with the plain
acknowledgement when routing returns; 200 with a warning field when routing
throws an error not named `SyntaxError`; and no status besides 200, 400 and
401 is possible. -/
theorem handleWebhook_statuses {α : Type} (parse : String → Option α)
    (route : α → RouteResult) (hmacHex : String → String → String)
    (webhookSecret : Option String) (body : String) (signature : Option String) :
    (parse body = none →
      handleWebhook parse route hmacHex webhookSecret body signature =
        { status := 400, body := "\x7b\"error\":\"Invalid JSON\"\x7d" })
    ∧ (∀ payload, parse body = some payload →
        strTruthy webhookSecret = true → strTruthy signature = true →
        validateSignature hmacHex webhookSecret body (signature.getD "") = false →
        handleWebhook parse route hmacHex webhookSecret body signature =
          { status := 401, body := "\x7b\"error\":\"Invalid signature\"\x7d" })
    ∧ (∀ payload, parse body = some payload →
        (strTruthy webhookSecret && strTruthy signature &&
          !validateSignature hmacHex webhookSecret body (signature.getD "")) = false →
        route payload = .ok →
        handleWebhook parse route hmacHex webhookSecret body signature =
          { status := 200, body := "\x7b\"status\":\"received\"\x7d" })
    ∧ (∀ payload e, parse body = some payload →
        (strTruthy webhookSecret && strTruthy signature &&
          !validateSignature hmacHex webhookSecret body (signature.getD "")) = false →
        route payload = .raised e → e.name ≠ "SyntaxError" →
        handleWebhook parse route hmacHex webhookSecret body signature =
          { status := 200,
            body := "\x7b\"status\":\"received\",\"warning\":\"Processing error\"\x7d" })
    ∧ (∀ payload e, parse body = some payload →
        (strTruthy webhookSecret && strTruthy signature &&
          !validateSignature hmacHex webhookSecret body (signature.getD "")) = false →
        route payload = .raised e → e.name = "SyntaxError" →
        handleWebhook parse route hmacHex webhookSecret body signature =
          { status := 400, body := "\x7b\"error\":\"Invalid JSON\"\x7d" })
    ∧ ((handleWebhook parse route hmacHex webhookSecret body signature).status = 200
        ∨ (handleWebhook parse route hmacHex webhookSecret body signature).status = 400
        ∨ (handleWebhook parse route hmacHex webhookSecret body signature).status = 401) := by
  refine ⟨?_, ?_, ?_, ?_, ?_, ?_⟩
  · intro hp
    simp [handleWebhook, hp]
  · intro payload hp hs hsig hval
    simp [handleWebhook, hp, hs, hsig, hval]
  · intro payload hp hcond hro
    simp [handleWebhook, hp, hcond, hro]
  · intro payload e hp hcond hre hn
    simp [handleWebhook, hp, hcond, hre, hn]
  · intro payload e hp hcond hre hn
    simp [handleWebhook, hp, hcond, hre, hn]
  · unfold handleWebhook
    cases hp : parse body with
    | none => simp
    | some payload =>
        by_cases hcond : (strTruthy webhookSecret && strTruthy signature &&
            !validateSignature hmacHex webhookSecret body (signature.getD "")) = true
        · simp [hcond]
        · simp only [hcond, Bool.false_eq_true, if_false]
          cases hro : route payload with
          | ok => simp
          | raised e =>
              by_cases hn : e.name = "SyntaxError"
              · simp [hn]
              · simp [hn]

/-- Route outcome for the C8 counterexample: the dispatched handler throws
an error named `SyntaxError` after the body parsed successfully. -/
def syntaxErrorRoute : Unit → RouteResult :=
  fun _ => .raised { name := "SyntaxError", message := "Unexpected token" }

/-- C8 counterexample: a parseable body whose processing throws an error
named `SyntaxError` yields HTTP 400, not 200 — the catch block classifies
parse failures by error name, so not every processing error after a
successful JSON parse is swallowed into a 200 response. -/
theorem processing_syntax_error_yields_400 :
    handleWebhook (fun _ => some ()) syntaxErrorRoute (fun _ _ => "") none
        "\x7b\"type\":\"message\"\x7d" none =
      { status := 400, body := "\x7b\"error\":\"Invalid JSON\"\x7d" } := by
  rfl

/-- Witness for C8 (amended): with a configured secret and a wrong
signature on a parseable body, the response is the 401 invalid-signature
response. -/
theorem handleWebhook_statuses_witness :
    handleWebhook (fun _ => some ()) (fun _ => RouteResult.ok)
        (fun _ _ => "digest-abc") (some "secret") "\x7b\x7d"
        (some "wrong-signature") =
      { status := 401, body := "\x7b\"error\":\"Invalid signature\"\x7d" } :=
  (handleWebhook_statuses (fun _ => some ()) (fun _ => RouteResult.ok)
    (fun _ _ => "digest-abc") (some "secret") "\x7b\x7d"
    (some "wrong-signature")).2.1 () rfl (by decide) (by decide) (by decide)

end Gupshup
